import Mathlib

/-!
Shallow embedding of the bastion reconciliation core of the
gardener-extension-provider-gcp repository
(pkg/controller/bastion/actuator_reconcile.go and the controller-manager
wiring in the app package), together with theorems about its behaviour.

Go pointers that may be nil are modelled as `Option`; Go `(value, error)`
returns are modelled as `Except String value` (or as explicit pairs where the
Go code can return both a value and an error); the stateful GCP client is
modelled by explicit state passing plus a trace of the calls issued.
-/

/-- The corev1 LoadBalancerIngress record as used by the bastion controller:
an IP and a Hostname, either of which may be empty. -/
structure LoadBalancerIngress where
  IP : String := ""
  Hostname : String := ""
  deriving Repr, DecidableEq

/-- The fields of compute AccessConfig read by the bastion controller. -/
structure AccessConfig where
  NatIP : String := ""
  deriving Repr, DecidableEq

/-- The fields of compute NetworkInterface read by the bastion controller. -/
structure NetworkInterface where
  NetworkIP : String := ""
  AccessConfigs : List AccessConfig := []
  deriving Repr, DecidableEq

/-- The fields of compute Instance read by the bastion controller. -/
structure Instance where
  Name : String := ""
  Status : String := ""
  NetworkInterfaces : List NetworkInterface := []
  deriving Repr, DecidableEq

/-- bastionEndpoints collects the endpoints the bastion host provides
(actuator_reconcile.go). The Go fields `private` and `public` are Lean
keywords, hence `privateEndpoint` / `publicEndpoint`. Both are nilable
pointers, modelled as `Option`. -/
structure bastionEndpoints where
  privateEndpoint : Option LoadBalancerIngress := none
  publicEndpoint : Option LoadBalancerIngress := none
  deriving Repr, DecidableEq

/-- IngressReady returns true if either an IP or a hostname or both are set
(actuator_reconcile.go line 213). The nilable pointer receiver is an
`Option`. -/
def IngressReady (ingress : Option LoadBalancerIngress) : Bool :=
  match ingress with
  | none => false
  | some i => (i.Hostname != "") || (i.IP != "")

/-- Ready returns true if both public and private interfaces each have either
an IP or a hostname or both (actuator_reconcile.go line 48); the method's
nilable pointer receiver is an `Option`, and a nil receiver yields false. -/
def bastionEndpoints.Ready (be : Option bastionEndpoints) : Bool :=
  match be with
  | none => false
  | some b => IngressReady b.privateEndpoint && IngressReady b.publicEndpoint

/-- addressToIngress converts the IP address into a LoadBalancerIngress
resource; if both arguments are nil, nil is returned
(actuator_reconcile.go line 220). -/
def addressToIngress (dnsName : Option String) (ipAddress : Option String) :
    Option LoadBalancerIngress :=
  if ipAddress.isSome || dnsName.isSome then
    some { Hostname := dnsName.getD "", IP := ipAddress.getD "" }
  else
    none

/-- getInstanceEndpoints (actuator_reconcile.go line 173): derives the
bastion endpoints from a (nilable) compute instance. -/
def getInstanceEndpoints (instanceOpt : Option Instance) :
    Except String bastionEndpoints :=
  match instanceOpt with
  | none => .error "compute instance can't be nil"
  | some inst =>
    if inst.Status ≠ "RUNNING" then
      .error ("instance not running, status: " ++ inst.Status)
    else
      match inst.NetworkInterfaces with
      | [] => .error ("no network interfaces found: " ++ inst.Name)
      | ni :: _ =>
        let internalIP := ni.NetworkIP
        match ni.AccessConfigs with
        | [] => .error ("no access config found for network interface: " ++ inst.Name)
        | ac :: _ =>
          let externalIP := ac.NatIP
          let endpoints0 : bastionEndpoints := {}
          let endpoints1 :=
            match addressToIngress (some inst.Name) (some internalIP) with
            | some ingress => { endpoints0 with privateEndpoint := some ingress }
            | none => endpoints0
          let endpoints2 :=
            match addressToIngress none (some externalIP) with
            | some ingress => { endpoints1 with publicEndpoint := some ingress }
            | none => endpoints1
          .ok endpoints2

/-- A concrete running instance with internal IP 10.0.0.5 and NAT IP
34.1.2.3, used as a test input. -/
def sampleRunningInstance : Instance where
  Name := "bastion"
  Status := "RUNNING"
  NetworkInterfaces :=
    [{ NetworkIP := "10.0.0.5", AccessConfigs := [{ NatIP := "34.1.2.3" }] }]

/-- The fields of the resolved Options record used by the firewall ensurer
and by Reconcile. -/
structure Options where
  ProjectID : String := ""
  Zone : String := ""
  BastionInstanceName : String := ""
  DiskName : String := ""
  CIDRs : List String := []
  deriving Repr, DecidableEq

/-- The fields of compute Firewall read by ensureFirewallRules. -/
structure Firewall where
  Name : String := ""
  SourceRanges : List String := []
  deriving Repr, DecidableEq

/-- Modelled from the spec: the builder of the ingress-allow-SSH firewall-rule
descriptor lives outside src/. Per the spec it is one of the three required
rule descriptors, named after the bastion instance, and its source CIDR set
is the declared list opt.CIDRs. -/
def IngressAllowSSH (opt : Options) : Firewall :=
  { Name := opt.BastionInstanceName ++ "-allow-ssh", SourceRanges := opt.CIDRs }

/-- Modelled from the spec: the egress-deny-all firewall-rule descriptor;
its builder lives outside src/. -/
def EgressDenyAll (opt : Options) : Firewall :=
  { Name := opt.BastionInstanceName ++ "-deny-all" }

/-- Modelled from the spec: the egress-allow-only firewall-rule descriptor;
its builder lives outside src/. -/
def EgressAllowOnly (opt : Options) : Firewall :=
  { Name := opt.BastionInstanceName ++ "-egress-worker" }

/-- Modelled from the spec: getFirewallRule fetches a firewall rule by name;
its implementation lives outside src/. The provider state is the list of
existing rules. -/
def getFirewallRule (state : List Firewall) (name : String) : Option Firewall :=
  state.find? (fun f => decide (f.Name = name))

/-- Modelled from the spec: createFirewallRuleIfNotExist fetches by name and,
if the rule is absent, creates it; its implementation lives outside src/. -/
def createFirewallRuleIfNotExist (state : List Firewall) (rule : Firewall) :
    List Firewall :=
  match getFirewallRule state rule.Name with
  | some _ => state
  | none => state ++ [rule]

/-- Modelled from the spec: patchFirewallRule issues a patch that reconciles
the named rule's source CIDR set with the desired set opt.CIDRs; its
implementation lives outside src/. -/
def patchFirewallRule (state : List Firewall) (opt : Options) (name : String) :
    List Firewall :=
  state.map (fun f =>
    if f.Name = name then { f with SourceRanges := opt.CIDRs } else f)

/-- The list of the three required firewall rules
(actuator_reconcile.go line 129). -/
def firewallList (opt : Options) : List Firewall :=
  [IngressAllowSSH opt, EgressDenyAll opt, EgressAllowOnly opt]

/-- The creation loop of ensureFirewallRules
(actuator_reconcile.go lines 131-135). -/
def ensureFirewallRulesExist (state : List Firewall) (opt : Options) :
    List Firewall :=
  (firewallList opt).foldl createFirewallRuleIfNotExist state

/-- ensureFirewallRules (actuator_reconcile.go line 128). The client state is
passed explicitly; the result carries the new provider state together with
the names of the rules for which a patch call was issued. -/
def ensureFirewallRules (state : List Firewall) (opt : Options) :
    Except String (List Firewall × List String) :=
  let ensured := ensureFirewallRulesExist state opt
  match getFirewallRule ensured (IngressAllowSSH opt).Name with
  | none => .error "could not get firewall rule"
  | some firewall =>
    let currentCIDRs := firewall.SourceRanges
    let wantedCIDRs := opt.CIDRs
    if currentCIDRs = wantedCIDRs then
      .ok (ensured, [])
    else
      .ok (patchFirewallRule ensured opt (IngressAllowSSH opt).Name,
           [(IngressAllowSSH opt).Name])

/-- The fields of compute Disk read by the bastion controller. -/
structure Disk where
  Name : String := ""
  deriving Repr, DecidableEq

/-- One kind of GCP client call issued by the disk / instance ensurers. -/
inductive ClientCall where
  | getCall
  | insertCall
  deriving Repr, DecidableEq

/-- Oracle for the GCP client calls ensureDisk can issue: the outcome of the
first fetch, of the insert, and of the re-fetch. A fetch returns a possibly
nil disk and a possibly nil error, as in Go. -/
structure DiskClient where
  get1 : Option Disk × Option String
  insertResult : Option String
  get2 : Option Disk × Option String
  deriving Repr, DecidableEq

/-- ensureDisk (actuator_reconcile.go line 237): returns the Go error value
(none on success) together with the trace of client calls issued. -/
def ensureDisk (c : DiskClient) : Option String × List ClientCall :=
  let (disk, err) := c.get1
  if disk.isSome || err.isSome then
    (err, [.getCall])
  else
    match c.insertResult with
    | some e =>
      (some ("failed to create compute instance disk: " ++ e),
       [.getCall, .insertCall])
    | none =>
      let (disk2, err2) := c.get2
      if disk2.isSome || err2.isSome then
        (err2, [.getCall, .insertCall, .getCall])
      else
        (some "failed to get (create) compute instance disk",
         [.getCall, .insertCall, .getCall])

/-- Oracle for the GCP client calls ensureComputeInstance can issue. -/
structure InstanceClient where
  get1 : Option Instance × Option String
  insertResult : Option String
  get2 : Option Instance × Option String
  deriving Repr, DecidableEq

/-- ensureComputeInstance (actuator_reconcile.go line 152): returns the Go
pair (instance, error) together with the trace of client calls issued. -/
def ensureComputeInstance (c : InstanceClient) :
    (Option Instance × Option String) × List ClientCall :=
  let (inst, err) := c.get1
  if inst.isSome || err.isSome then
    ((inst, err), [.getCall])
  else
    match c.insertResult with
    | some e =>
      ((none, some ("failed to create bastion compute instance: " ++ e)),
       [.getCall, .insertCall])
    | none =>
      let (inst2, err2) := c.get2
      if inst2.isSome || err2.isSome then
        ((inst2, err2), [.getCall, .insertCall, .getCall])
      else
        ((none, some "failed to get (create) bastion compute instance"),
         [.getCall, .insertCall, .getCall])

/-- The verdict a Reconcile pass communicates to the scheduler: success,
requeue after a delay in seconds, or a failure. -/
inductive Verdict where
  | success
  | requeueAfterSeconds (d : Nat)
  | failure (msg : String)
  deriving Repr, DecidableEq

/-- Externally visible effects of a Reconcile pass, at the granularity the
spec talks about: the two status writes and the three ensure steps. -/
inductive ReconcileAction where
  | updateZoneStatus (zone : String)
  | ensureFirewallStep
  | ensureDiskStep
  | ensureInstanceStep
  | updateIngressStatus (ingress : LoadBalancerIngress)
  deriving Repr, DecidableEq

/-- Oracle for the collaborator calls Reconcile makes around the endpoint
logic: each field is the outcome of one call, in program order
(actuator_reconcile.go lines 52-124). The instance result is the Go pair
returned by ensureComputeInstance. -/
structure ReconcileEnv where
  serviceAccountResult : Except String Unit
  gcpClientResult : Except String Unit
  optionsResult : Except String Options
  defaultZoneResult : Except String String
  zoneStatusUpdateResult : Option String
  firewallResult : Option String
  diskResult : Option String
  instanceResult : Option Instance × Option String
  ingressStatusUpdateResult : Option String
  deriving Repr

/-- Reconcile (actuator_reconcile.go line 52): the orchestration sequence,
with the collaborator outcomes supplied by the environment and the endpoint
logic taken from the definitions above. Returns the verdict and the trace of
externally visible actions that were issued (a status update attempt is
recorded even if it fails). -/
def Reconcile (env : ReconcileEnv) : Verdict × List ReconcileAction :=
  match env.serviceAccountResult with
  | .error e => (.failure ("failed to get service account: " ++ e), [])
  | .ok _ =>
    match env.gcpClientResult with
    | .error e => (.failure ("failed to create GCP client: " ++ e), [])
    | .ok _ =>
      match env.optionsResult with
      | .error e => (.failure ("failed to determine Options: " ++ e), [])
      | .ok opt =>
        match (if opt.Zone = "" then env.defaultZoneResult else .ok opt.Zone) with
        | .error e => (.failure e, [])
        | .ok zone =>
          match env.zoneStatusUpdateResult with
          | some _ =>
            (.failure ("failed to store status.providerStatus for zone: " ++ zone),
             [.updateZoneStatus zone])
          | none =>
            match env.firewallResult with
            | some e =>
              (.failure ("failed to ensure firewall rule: " ++ e),
               [.updateZoneStatus zone, .ensureFirewallStep])
            | none =>
              match env.diskResult with
              | some e =>
                (.failure e,
                 [.updateZoneStatus zone, .ensureFirewallStep, .ensureDiskStep])
              | none =>
                match env.instanceResult.2 with
                | some e =>
                  (.failure e,
                   [.updateZoneStatus zone, .ensureFirewallStep, .ensureDiskStep,
                    .ensureInstanceStep])
                | none =>
                  let tr := [ReconcileAction.updateZoneStatus zone,
                             .ensureFirewallStep, .ensureDiskStep,
                             .ensureInstanceStep]
                  match getInstanceEndpoints env.instanceResult.1 with
                  | .error e => (.failure e, tr)
                  | .ok endpoints =>
                    if ! bastionEndpoints.Ready (some endpoints) then
                      (.requeueAfterSeconds 5, tr)
                    else
                      match endpoints.publicEndpoint with
                      | none =>
                        (.failure "nil pointer dereference", tr)
                      | some pub =>
                        match env.ingressStatusUpdateResult with
                        | some e =>
                          (.failure e, tr ++ [.updateIngressStatus pub])
                        | none =>
                          (.success, tr ++ [.updateIngressStatus pub])

/-- The ControllerOptions record of the controller-manager command (app
package): only the concurrency bound is read here. -/
structure ControllerOptions where
  MaxConcurrentReconciles : Nat
  deriving Repr, DecidableEq

/-- Options for the bastion controller (app package, NewControllerManagerCommand). -/
def bastionCtrlOpts : ControllerOptions :=
  { MaxConcurrentReconciles := 5 }

/-- C9: the endpoint-inspection entry points are total on nil inputs:
Ready on a nil receiver returns false, IngressReady on nil returns false,
and getInstanceEndpoints on nil returns an error rather than panicking. -/
theorem claim9_nil_inputs_total :
    bastionEndpoints.Ready none = false ∧ IngressReady none = false ∧
      getInstanceEndpoints none = .error "compute instance can't be nil" :=
  ⟨rfl, rfl, rfl⟩

/-- C4: for every instance whose Status is not RUNNING, getInstanceEndpoints
returns an error (so it never returns a bastionEndpoints value). -/
theorem claim4_not_running_is_error (inst : Instance)
    (h : inst.Status ≠ "RUNNING") :
    getInstanceEndpoints (some inst) =
      .error ("instance not running, status: " ++ inst.Status) := by
  unfold getInstanceEndpoints
  simp [h]

/-- Witness for C4 at a concrete PROVISIONING instance. -/
theorem claim4_witness :
    ({ Name := "b", Status := "PROVISIONING" } : Instance).Status ≠ "RUNNING" ∧
    getInstanceEndpoints (some { Name := "b", Status := "PROVISIONING" }) =
      .error "instance not running, status: PROVISIONING" :=
  ⟨by decide,
   claim4_not_running_is_error { Name := "b", Status := "PROVISIONING" }
     (by decide)⟩

/-- C8: the bastion controller is configured with a fixed concurrency limit
of exactly 5 maximum concurrent reconciles. -/
theorem claim8_bastion_concurrency_limit :
    bastionCtrlOpts.MaxConcurrentReconciles = 5 :=
  rfl

/-- C1 counterexample: on a RUNNING instance named "bastion" with internal IP
10.0.0.5 and NAT IP 34.1.2.3, the private endpoint carries the instance name
as hostname, so it is not the record with only the IP set. -/
theorem claim1_counterexample :
    getInstanceEndpoints (some sampleRunningInstance) =
      .ok { privateEndpoint := some { Hostname := "bastion", IP := "10.0.0.5" },
            publicEndpoint := some { Hostname := "", IP := "34.1.2.3" } } ∧
    (some { Hostname := "bastion", IP := "10.0.0.5" } :
        Option LoadBalancerIngress) ≠
      some { Hostname := "", IP := "10.0.0.5" } :=
  ⟨rfl, by decide⟩

/-- C1 (amended): a RUNNING instance whose first network interface has
NetworkIP 10.0.0.5 and whose first access config has NatIP 34.1.2.3 yields,
without error, a private endpoint holding the instance name as hostname and
IP 10.0.0.5, a public endpoint holding IP 34.1.2.3 and no hostname, and
Ready() = true on the result. -/
theorem claim1_endpoint_derivation (inst : Instance) (ni : NetworkInterface)
    (ac : AccessConfig) (nis : List NetworkInterface) (acs : List AccessConfig)
    (hrun : inst.Status = "RUNNING")
    (hni : inst.NetworkInterfaces = ni :: nis)
    (hac : ni.AccessConfigs = ac :: acs)
    (hip : ni.NetworkIP = "10.0.0.5") (hnat : ac.NatIP = "34.1.2.3") :
    getInstanceEndpoints (some inst) =
      .ok { privateEndpoint := some { Hostname := inst.Name, IP := "10.0.0.5" },
            publicEndpoint := some { Hostname := "", IP := "34.1.2.3" } } ∧
    bastionEndpoints.Ready (some
      { privateEndpoint := some { Hostname := inst.Name, IP := "10.0.0.5" },
        publicEndpoint := some { Hostname := "", IP := "34.1.2.3" } }) = true := by
  constructor
  · unfold getInstanceEndpoints
    simp [hrun, hni, hac, hip, hnat, addressToIngress]
  · simp [bastionEndpoints.Ready, IngressReady]

/-- Witness for C1 (amended) at the concrete sample instance. -/
theorem claim1_witness :
    sampleRunningInstance.Status = "RUNNING" ∧
    getInstanceEndpoints (some sampleRunningInstance) =
      .ok { privateEndpoint :=
              some { Hostname := sampleRunningInstance.Name, IP := "10.0.0.5" },
            publicEndpoint := some { Hostname := "", IP := "34.1.2.3" } } ∧
    bastionEndpoints.Ready (some
      { privateEndpoint :=
          some { Hostname := sampleRunningInstance.Name, IP := "10.0.0.5" },
        publicEndpoint := some { Hostname := "", IP := "34.1.2.3" } }) = true :=
  ⟨rfl,
   (claim1_endpoint_derivation sampleRunningInstance
     { NetworkIP := "10.0.0.5", AccessConfigs := [{ NatIP := "34.1.2.3" }] }
     { NatIP := "34.1.2.3" } [] [] rfl rfl rfl rfl rfl).1,
   (claim1_endpoint_derivation sampleRunningInstance
     { NetworkIP := "10.0.0.5", AccessConfigs := [{ NatIP := "34.1.2.3" }] }
     { NatIP := "34.1.2.3" } [] [] rfl rfl rfl rfl rfl).2⟩

/-- C10: for running instances, getInstanceEndpoints depends solely on the
instance name, the first network interface's NetworkIP and its first access
config's NatIP: two running instances agreeing on those fields get equal
results, regardless of any additional interfaces or access configs. -/
theorem claim10_first_slots_only (i1 i2 : Instance)
    (n1 n2 : NetworkInterface) (a1 a2 : AccessConfig)
    (r1 r2 : List NetworkInterface) (s1 s2 : List AccessConfig)
    (hname : i1.Name = i2.Name)
    (hst1 : i1.Status = "RUNNING") (hst2 : i2.Status = "RUNNING")
    (h1 : i1.NetworkInterfaces = n1 :: r1)
    (h2 : i2.NetworkInterfaces = n2 :: r2)
    (hip : n1.NetworkIP = n2.NetworkIP)
    (ha1 : n1.AccessConfigs = a1 :: s1) (ha2 : n2.AccessConfigs = a2 :: s2)
    (hnat : a1.NatIP = a2.NatIP) :
    getInstanceEndpoints (some i1) = getInstanceEndpoints (some i2) := by
  unfold getInstanceEndpoints
  simp [h1, h2, ha1, ha2, hst1, hst2, hname, hip, hnat, addressToIngress]

/-- Witness for C10: a second instance with an extra network interface and an
extra access config resolves to the same endpoints as the sample instance. -/
theorem claim10_witness :
    getInstanceEndpoints (some sampleRunningInstance) =
      getInstanceEndpoints (some
        { Name := "bastion", Status := "RUNNING",
          NetworkInterfaces :=
            [{ NetworkIP := "10.0.0.5",
               AccessConfigs := [{ NatIP := "34.1.2.3" }, { NatIP := "9.9.9.9" }] },
             { NetworkIP := "172.16.0.1", AccessConfigs := [] }] }) :=
  claim10_first_slots_only sampleRunningInstance
    { Name := "bastion", Status := "RUNNING",
      NetworkInterfaces :=
        [{ NetworkIP := "10.0.0.5",
           AccessConfigs := [{ NatIP := "34.1.2.3" }, { NatIP := "9.9.9.9" }] },
         { NetworkIP := "172.16.0.1", AccessConfigs := [] }] }
    { NetworkIP := "10.0.0.5", AccessConfigs := [{ NatIP := "34.1.2.3" }] }
    { NetworkIP := "10.0.0.5",
      AccessConfigs := [{ NatIP := "34.1.2.3" }, { NatIP := "9.9.9.9" }] }
    { NatIP := "34.1.2.3" } { NatIP := "34.1.2.3" }
    [] [{ NetworkIP := "172.16.0.1", AccessConfigs := [] }]
    [] [{ NatIP := "9.9.9.9" }]
    rfl rfl rfl rfl rfl rfl rfl rfl rfl
/-- C6: partial endpoint availability is not-ready, not an error: a running
instance with interface and access config present but empty NatIP resolves
without error to endpoints with Ready() = false, and a Reconcile pass whose
earlier steps all succeed then returns a requeue-after verdict of 5 seconds. -/
theorem claim6_pending_endpoints_requeue (inst : Instance)
    (ni : NetworkInterface) (ac : AccessConfig) (nis : List NetworkInterface)
    (acs : List AccessConfig) (env : ReconcileEnv) (opt : Options)
    (hrun : inst.Status = "RUNNING")
    (hni : inst.NetworkInterfaces = ni :: nis)
    (hac : ni.AccessConfigs = ac :: acs)
    (hnat : ac.NatIP = "")
    (hsa : env.serviceAccountResult = .ok ())
    (hgc : env.gcpClientResult = .ok ())
    (hopt : env.optionsResult = .ok opt) (hzone : opt.Zone ≠ "")
    (hzs : env.zoneStatusUpdateResult = none)
    (hfw : env.firewallResult = none) (hdk : env.diskResult = none)
    (hir : env.instanceResult = (some inst, none)) :
    getInstanceEndpoints (some inst) =
      .ok { privateEndpoint := some { Hostname := inst.Name, IP := ni.NetworkIP },
            publicEndpoint := some { Hostname := "", IP := "" } } ∧
    bastionEndpoints.Ready (some
      { privateEndpoint := some { Hostname := inst.Name, IP := ni.NetworkIP },
        publicEndpoint := some { Hostname := "", IP := "" } }) = false ∧
    (Reconcile env).1 = .requeueAfterSeconds 5 := by
  have hend : getInstanceEndpoints (some inst) =
      .ok { privateEndpoint := some { Hostname := inst.Name, IP := ni.NetworkIP },
            publicEndpoint := some { Hostname := "", IP := "" } } := by
    unfold getInstanceEndpoints
    simp [hrun, hni, hac, hnat, addressToIngress]
  have hready : bastionEndpoints.Ready (some
      { privateEndpoint := some { Hostname := inst.Name, IP := ni.NetworkIP },
        publicEndpoint := some { Hostname := "", IP := "" } }) = false := by
    simp [bastionEndpoints.Ready, IngressReady]
  refine ⟨hend, hready, ?_⟩
  unfold Reconcile
  rw [hsa, hgc, hopt, hzs, hfw, hdk, hir]
  simp [hzone, hend, hready]

/-- A concrete running instance whose NAT IP has not been assigned yet. -/
def samplePendingInstance : Instance where
  Name := "bastion"
  Status := "RUNNING"
  NetworkInterfaces :=
    [{ NetworkIP := "10.0.0.5", AccessConfigs := [{ NatIP := "" }] }]

/-- A concrete Reconcile environment in which every collaborator call
succeeds and the ensured instance is the pending sample instance. -/
def samplePendingEnv : ReconcileEnv where
  serviceAccountResult := .ok ()
  gcpClientResult := .ok ()
  optionsResult := .ok { Zone := "europe-west1-b" }
  defaultZoneResult := .ok "europe-west1-b"
  zoneStatusUpdateResult := none
  firewallResult := none
  diskResult := none
  instanceResult := (some samplePendingInstance, none)
  ingressStatusUpdateResult := none

/-- Witness for C6 at the concrete pending instance and environment. -/
theorem claim6_witness :
    samplePendingInstance.Status = "RUNNING" ∧
    ({ Zone := "europe-west1-b" } : Options).Zone ≠ "" ∧
    getInstanceEndpoints (some samplePendingInstance) =
      .ok { privateEndpoint := some { Hostname := "bastion", IP := "10.0.0.5" },
            publicEndpoint := some { Hostname := "", IP := "" } } ∧
    bastionEndpoints.Ready (some
      { privateEndpoint := some { Hostname := "bastion", IP := "10.0.0.5" },
        publicEndpoint := some { Hostname := "", IP := "" } }) = false ∧
    (Reconcile samplePendingEnv).1 = .requeueAfterSeconds 5 := by
  have h := claim6_pending_endpoints_requeue samplePendingInstance
    { NetworkIP := "10.0.0.5", AccessConfigs := [{ NatIP := "" }] }
    { NatIP := "" } [] [] samplePendingEnv { Zone := "europe-west1-b" }
    rfl rfl rfl rfl rfl rfl rfl (by decide) rfl rfl rfl rfl
  exact ⟨rfl, by decide, h.1, h.2.1, h.2.2⟩

/-- C5: for a running instance, an empty network-interface list or an empty
access-config list on the first interface makes getInstanceEndpoints return
an error (even when the internal IP is present), and such an error is
propagated by Reconcile as a failure verdict, never as a requeue verdict. -/
theorem claim5_structural_absence_hard_error (inst : Instance)
    (hrun : inst.Status = "RUNNING") :
    (inst.NetworkInterfaces = [] →
      getInstanceEndpoints (some inst) =
        .error ("no network interfaces found: " ++ inst.Name)) ∧
    (∀ ni nis, inst.NetworkInterfaces = ni :: nis → ni.AccessConfigs = [] →
      getInstanceEndpoints (some inst) =
        .error ("no access config found for network interface: " ++ inst.Name)) ∧
    (∀ env e d, env.instanceResult = (some inst, none) →
      getInstanceEndpoints (some inst) = .error e →
      (Reconcile env).1 ≠ .requeueAfterSeconds d ∧
      (ReconcileAction.ensureInstanceStep ∈ (Reconcile env).2 →
        (Reconcile env).1 = .failure e)) := by
  refine ⟨?_, ?_, ?_⟩
  · intro h
    unfold getInstanceEndpoints
    simp [hrun, h]
  · intro ni nis hni hac
    unfold getInstanceEndpoints
    simp [hrun, hni, hac]
  · intro env e d hir herr
    obtain ⟨sa, gc, opts, dz, zs, fw, dk, ir, ing⟩ := env
    dsimp only at hir
    subst hir
    rcases sa with se | u
    · exact ⟨by simp [Reconcile], by simp [Reconcile]⟩
    rcases gc with ge | gu
    · exact ⟨by simp [Reconcile], by simp [Reconcile]⟩
    rcases opts with oe | opt
    · exact ⟨by simp [Reconcile], by simp [Reconcile]⟩
    rcases hzr : (if opt.Zone = "" then dz else Except.ok opt.Zone) with ze | z
    · exact ⟨by simp [Reconcile, hzr], by simp [Reconcile, hzr]⟩
    rcases zs with _ | ze
    case some => exact ⟨by simp [Reconcile, hzr], by simp [Reconcile, hzr]⟩
    rcases fw with _ | fe
    case some => exact ⟨by simp [Reconcile, hzr], by simp [Reconcile, hzr]⟩
    rcases dk with _ | de
    case some => exact ⟨by simp [Reconcile, hzr], by simp [Reconcile, hzr]⟩
    exact ⟨by simp [Reconcile, hzr, herr], by simp [Reconcile, hzr, herr]⟩

/-- A concrete running instance with no network interfaces at all. -/
def sampleNoNetworkInstance : Instance where
  Name := "b"
  Status := "RUNNING"
  NetworkInterfaces := []

/-- A concrete running instance whose first interface has an internal IP but
no access configs. -/
def sampleNoAccessInstance : Instance where
  Name := "b"
  Status := "RUNNING"
  NetworkInterfaces := [{ NetworkIP := "10.0.0.5", AccessConfigs := [] }]

/-- A concrete Reconcile environment whose ensured instance lacks network
interfaces, with every collaborator call succeeding. -/
def sampleHardErrorEnv : ReconcileEnv where
  serviceAccountResult := .ok ()
  gcpClientResult := .ok ()
  optionsResult := .ok { Zone := "europe-west1-b" }
  defaultZoneResult := .ok "europe-west1-b"
  zoneStatusUpdateResult := none
  firewallResult := none
  diskResult := none
  instanceResult := (some sampleNoNetworkInstance, none)
  ingressStatusUpdateResult := none

/-- Witness for C5 at concrete instances and a concrete environment. -/
theorem claim5_witness :
    sampleNoNetworkInstance.Status = "RUNNING" ∧
    sampleNoAccessInstance.Status = "RUNNING" ∧
    getInstanceEndpoints (some sampleNoNetworkInstance) =
      .error "no network interfaces found: b" ∧
    getInstanceEndpoints (some sampleNoAccessInstance) =
      .error "no access config found for network interface: b" ∧
    (Reconcile sampleHardErrorEnv).1 = .failure "no network interfaces found: b" := by
  have h1 := claim5_structural_absence_hard_error sampleNoNetworkInstance rfl
  have h2 := claim5_structural_absence_hard_error sampleNoAccessInstance rfl
  refine ⟨rfl, rfl, h1.1 rfl, h2.2.1 _ _ rfl rfl, ?_⟩
  exact (h1.2.2 sampleHardErrorEnv "no network interfaces found: b" 5 rfl
    (h1.1 rfl)).2 (by decide)

/-- C7: within one Reconcile pass, the zone status update comes before any
firewall, disk, or instance ensure step (it is the head of the action trace
whenever such a step was issued), and an ingress status update is issued only
when the instance step succeeded and the resolved endpoints are Ready, with
the written ingress being the resolved public endpoint. -/
theorem claim7_status_update_ordering (env : ReconcileEnv) :
    ((ReconcileAction.ensureFirewallStep ∈ (Reconcile env).2 ∨
      ReconcileAction.ensureDiskStep ∈ (Reconcile env).2 ∨
      ReconcileAction.ensureInstanceStep ∈ (Reconcile env).2) →
      ∃ z, (Reconcile env).2.head? = some (.updateZoneStatus z)) ∧
    (∀ ing, ReconcileAction.updateIngressStatus ing ∈ (Reconcile env).2 →
      ∃ inst e, env.instanceResult = (some inst, none) ∧
        getInstanceEndpoints (some inst) = .ok e ∧
        bastionEndpoints.Ready (some e) = true ∧
        e.publicEndpoint = some ing) := by
  obtain ⟨sa, gc, opts, dz, zs, fw, dk, ir, ing2⟩ := env
  obtain ⟨io, ie⟩ := ir
  rcases sa with se | u
  · exact ⟨fun h => by simp [Reconcile] at h, fun ing h => by simp [Reconcile] at h⟩
  rcases gc with ge | gu
  · exact ⟨fun h => by simp [Reconcile] at h, fun ing h => by simp [Reconcile] at h⟩
  rcases opts with oe | opt
  · exact ⟨fun h => by simp [Reconcile] at h, fun ing h => by simp [Reconcile] at h⟩
  rcases hzr : (if opt.Zone = "" then dz else Except.ok opt.Zone) with ze | z
  · exact ⟨fun h => by simp [Reconcile, hzr] at h,
           fun ing h => by simp [Reconcile, hzr] at h⟩
  rcases zs with _ | ze
  case some =>
    exact ⟨fun h => by simp [Reconcile, hzr] at h,
           fun ing h => by simp [Reconcile, hzr] at h⟩
  rcases fw with _ | fe
  case some =>
    exact ⟨fun _ => ⟨z, by simp [Reconcile, hzr]⟩,
           fun ing h => by simp [Reconcile, hzr] at h⟩
  rcases dk with _ | de
  case some =>
    exact ⟨fun _ => ⟨z, by simp [Reconcile, hzr]⟩,
           fun ing h => by simp [Reconcile, hzr] at h⟩
  rcases ie with _ | ee
  case some =>
    exact ⟨fun _ => ⟨z, by simp [Reconcile, hzr]⟩,
           fun ing h => by simp [Reconcile, hzr] at h⟩
  rcases io with _ | inst
  · exact ⟨fun _ => ⟨z, by simp [Reconcile, hzr, getInstanceEndpoints]⟩,
           fun ing h => by simp [Reconcile, hzr, getInstanceEndpoints] at h⟩
  rcases hge : getInstanceEndpoints (some inst) with ee | endpoints
  · exact ⟨fun _ => ⟨z, by simp [Reconcile, hzr, hge]⟩,
           fun ing h => by simp [Reconcile, hzr, hge] at h⟩
  rcases hre : bastionEndpoints.Ready (some endpoints) with _ | _
  · exact ⟨fun _ => ⟨z, by simp [Reconcile, hzr, hge, hre]⟩,
           fun ing h => by simp [Reconcile, hzr, hge, hre] at h⟩
  rcases hpub : endpoints.publicEndpoint with _ | pub
  · exact ⟨fun _ => ⟨z, by simp [Reconcile, hzr, hge, hre, hpub]⟩,
           fun ing h => by simp [Reconcile, hzr, hge, hre, hpub] at h⟩
  rcases ing2 with _ | ie2
  · refine ⟨fun _ => ⟨z, by simp [Reconcile, hzr, hge, hre, hpub]⟩, ?_⟩
    intro ing h
    simp [Reconcile, hzr, hge, hre, hpub] at h
    subst h
    exact ⟨inst, endpoints, rfl, hge, hre, hpub⟩
  · refine ⟨fun _ => ⟨z, by simp [Reconcile, hzr, hge, hre, hpub]⟩, ?_⟩
    intro ing h
    simp [Reconcile, hzr, hge, hre, hpub] at h
    subst h
    exact ⟨inst, endpoints, rfl, hge, hre, hpub⟩

/-- A concrete Reconcile environment in which every collaborator call
succeeds and the ensured instance is ready. -/
def sampleReadyEnv : ReconcileEnv where
  serviceAccountResult := .ok ()
  gcpClientResult := .ok ()
  optionsResult := .ok { Zone := "europe-west1-b" }
  defaultZoneResult := .ok "europe-west1-b"
  zoneStatusUpdateResult := none
  firewallResult := none
  diskResult := none
  instanceResult := (some sampleRunningInstance, none)
  ingressStatusUpdateResult := none

/-- Witness for C7 at the concrete ready environment. -/
theorem claim7_witness :
    ReconcileAction.ensureFirewallStep ∈ (Reconcile sampleReadyEnv).2 ∧
    (∃ z, (Reconcile sampleReadyEnv).2.head? =
      some (.updateZoneStatus z)) ∧
    ReconcileAction.updateIngressStatus { Hostname := "", IP := "34.1.2.3" } ∈
      (Reconcile sampleReadyEnv).2 ∧
    (∃ inst e, sampleReadyEnv.instanceResult = (some inst, none) ∧
      getInstanceEndpoints (some inst) = .ok e ∧
      bastionEndpoints.Ready (some e) = true ∧
      e.publicEndpoint = some { Hostname := "", IP := "34.1.2.3" }) := by
  have h := claim7_status_update_ordering sampleReadyEnv
  exact ⟨by decide, h.1 (Or.inl (by decide)), by decide, h.2 _ (by decide)⟩

/-- C3: ensureDisk and ensureComputeInstance follow get-or-create-then-
reconfirm: an existing resource (or a fetch error) is returned with no
insert issued; an absent resource triggers an insert and, if the insert
succeeds, a re-fetch; and if the re-fetch still reports absence with no
error, the procedure fails with a creation error. -/
theorem claim3_get_or_create_reconfirm :
    (∀ c : DiskClient,
      ((c.get1.1.isSome = true ∨ c.get1.2.isSome = true) →
        ensureDisk c = (c.get1.2, [.getCall])) ∧
      (c.get1 = (none, none) →
        ClientCall.insertCall ∈ (ensureDisk c).2 ∧
        (c.insertResult = none →
          (ensureDisk c).2 = [.getCall, .insertCall, .getCall])) ∧
      (c.get1 = (none, none) → c.insertResult = none → c.get2 = (none, none) →
        ensureDisk c =
          (some "failed to get (create) compute instance disk",
           [.getCall, .insertCall, .getCall]))) ∧
    (∀ c : InstanceClient,
      ((c.get1.1.isSome = true ∨ c.get1.2.isSome = true) →
        ensureComputeInstance c = ((c.get1.1, c.get1.2), [.getCall])) ∧
      (c.get1 = (none, none) →
        ClientCall.insertCall ∈ (ensureComputeInstance c).2 ∧
        (c.insertResult = none →
          (ensureComputeInstance c).2 = [.getCall, .insertCall, .getCall])) ∧
      (c.get1 = (none, none) → c.insertResult = none → c.get2 = (none, none) →
        ensureComputeInstance c =
          ((none, some "failed to get (create) bastion compute instance"),
           [.getCall, .insertCall, .getCall]))) := by
  constructor
  · intro c
    obtain ⟨g1, ins, g2⟩ := c
    obtain ⟨d, er⟩ := g1
    obtain ⟨d2, er2⟩ := g2
    refine ⟨?_, ?_, ?_⟩
    · intro h
      rcases h with h | h <;> simp [ensureDisk, h]
    · intro hg
      simp only [Prod.mk.injEq] at hg
      obtain ⟨h1, h2⟩ := hg
      subst h1
      subst h2
      rcases ins with _ | e
      · constructor
        · by_cases hif : d2.isSome || er2.isSome <;> simp [ensureDisk, hif]
        · intro _
          by_cases hif : d2.isSome || er2.isSome <;> simp [ensureDisk, hif]
      · exact ⟨by simp [ensureDisk], by intro h; exact absurd h (by simp)⟩
    · intro hg hi hg2
      simp only [Prod.mk.injEq] at hg hg2
      obtain ⟨h1, h2⟩ := hg
      obtain ⟨h3, h4⟩ := hg2
      subst h1; subst h2; subst h3; subst h4; subst hi
      simp [ensureDisk]
  · intro c
    obtain ⟨g1, ins, g2⟩ := c
    obtain ⟨d, er⟩ := g1
    obtain ⟨d2, er2⟩ := g2
    refine ⟨?_, ?_, ?_⟩
    · intro h
      rcases h with h | h <;> simp [ensureComputeInstance, h]
    · intro hg
      simp only [Prod.mk.injEq] at hg
      obtain ⟨h1, h2⟩ := hg
      subst h1
      subst h2
      rcases ins with _ | e
      · constructor
        · by_cases hif : d2.isSome || er2.isSome <;>
            simp [ensureComputeInstance, hif]
        · intro _
          by_cases hif : d2.isSome || er2.isSome <;>
            simp [ensureComputeInstance, hif]
      · exact ⟨by simp [ensureComputeInstance],
               by intro h; exact absurd h (by simp)⟩
    · intro hg hi hg2
      simp only [Prod.mk.injEq] at hg hg2
      obtain ⟨h1, h2⟩ := hg
      obtain ⟨h3, h4⟩ := hg2
      subst h1; subst h2; subst h3; subst h4; subst hi
      simp [ensureComputeInstance]

/-- A disk client oracle for which the disk already exists. -/
def sampleExistingDiskClient : DiskClient where
  get1 := (some { Name := "disk" }, none)
  insertResult := none
  get2 := (some { Name := "disk" }, none)

/-- A disk client oracle for which the disk is absent, creation succeeds,
and the re-fetch still reports absence. -/
def sampleVanishingDiskClient : DiskClient where
  get1 := (none, none)
  insertResult := none
  get2 := (none, none)

/-- An instance client oracle for which the instance is absent, creation
succeeds, and the re-fetch still reports absence. -/
def sampleVanishingInstanceClient : InstanceClient where
  get1 := (none, none)
  insertResult := none
  get2 := (none, none)

/-- Witness for C3 at concrete client oracles. -/
theorem claim3_witness :
    ensureDisk sampleExistingDiskClient = (none, [.getCall]) ∧
    ensureDisk sampleVanishingDiskClient =
      (some "failed to get (create) compute instance disk",
       [.getCall, .insertCall, .getCall]) ∧
    ensureComputeInstance sampleVanishingInstanceClient =
      ((none, some "failed to get (create) bastion compute instance"),
       [.getCall, .insertCall, .getCall]) :=
  ⟨(claim3_get_or_create_reconfirm.1 sampleExistingDiskClient).1
     (Or.inl (by decide)),
   (claim3_get_or_create_reconfirm.1 sampleVanishingDiskClient).2.2 rfl rfl rfl,
   (claim3_get_or_create_reconfirm.2 sampleVanishingInstanceClient).2.2
     rfl rfl rfl⟩

/-- Lookup on the empty rule state finds nothing. -/
theorem getFirewallRule_nil (n : String) : getFirewallRule [] n = none :=
  rfl

/-- Lookup finds a matching head rule. -/
theorem getFirewallRule_cons_pos (a : Firewall) (l : List Firewall)
    (n : String) (h : a.Name = n) : getFirewallRule (a :: l) n = some a := by
  unfold getFirewallRule
  rw [List.find?_cons_of_pos]
  simpa using h

/-- Lookup skips a non-matching head rule. -/
theorem getFirewallRule_cons_neg (a : Firewall) (l : List Firewall)
    (n : String) (h : a.Name ≠ n) :
    getFirewallRule (a :: l) n = getFirewallRule l n := by
  unfold getFirewallRule
  rw [List.find?_cons_of_neg]
  simpa using h

/-- Unfolding equation for patching a non-empty rule state. -/
theorem patchFirewallRule_cons (a : Firewall) (l : List Firewall)
    (opt : Options) (nm : String) :
    patchFirewallRule (a :: l) opt nm =
      (if a.Name = nm then { a with SourceRanges := opt.CIDRs } else a) ::
        patchFirewallRule l opt nm :=
  rfl

/-- A successful firewall lookup is preserved by appending further rules. -/
theorem getFirewallRule_append_left (s t : List Firewall) (n : String)
    (fw : Firewall) (h : getFirewallRule s n = some fw) :
    getFirewallRule (s ++ t) n = some fw := by
  induction s with
  | nil => rw [getFirewallRule_nil] at h; cases h
  | cons a l ih =>
    rw [List.cons_append]
    by_cases ha : a.Name = n
    · rw [getFirewallRule_cons_pos a l n ha] at h
      rw [getFirewallRule_cons_pos a (l ++ t) n ha]
      exact h
    · rw [getFirewallRule_cons_neg a l n ha] at h
      rw [getFirewallRule_cons_neg a (l ++ t) n ha]
      exact ih h

/-- A successful firewall lookup is preserved by createFirewallRuleIfNotExist. -/
theorem getFirewallRule_create_preserved (s : List Firewall) (r : Firewall)
    (n : String) (fw : Firewall) (h : getFirewallRule s n = some fw) :
    getFirewallRule (createFirewallRuleIfNotExist s r) n = some fw := by
  unfold createFirewallRuleIfNotExist
  cases getFirewallRule s r.Name with
  | some _ => exact h
  | none => exact getFirewallRule_append_left s [r] n fw h

/-- A successful firewall lookup is preserved by the creation loop of
ensureFirewallRules. -/
theorem getFirewallRule_ensureExist_preserved (s : List Firewall)
    (opt : Options) (n : String) (fw : Firewall)
    (h : getFirewallRule s n = some fw) :
    getFirewallRule (ensureFirewallRulesExist s opt) n = some fw := by
  unfold ensureFirewallRulesExist firewallList
  simp only [List.foldl]
  exact getFirewallRule_create_preserved _ _ _ _
    (getFirewallRule_create_preserved _ _ _ _
      (getFirewallRule_create_preserved _ _ _ _ h))

/-- Patching a named rule updates exactly that rule's source ranges as seen
through lookup. -/
theorem getFirewallRule_patch_self (s : List Firewall) (opt : Options)
    (n : String) (fw : Firewall) (h : getFirewallRule s n = some fw) :
    getFirewallRule (patchFirewallRule s opt n) n =
      some { fw with SourceRanges := opt.CIDRs } := by
  induction s with
  | nil => rw [getFirewallRule_nil] at h; cases h
  | cons a l ih =>
    rw [patchFirewallRule_cons]
    by_cases ha : a.Name = n
    · rw [getFirewallRule_cons_pos a l n ha] at h
      rw [if_pos ha]
      rw [getFirewallRule_cons_pos _ _ _ (by simpa using ha)]
      cases h
      rfl
    · rw [getFirewallRule_cons_neg a l n ha] at h
      rw [if_neg ha]
      rw [getFirewallRule_cons_neg a _ n ha]
      exact ih h

/-- Patching a named rule leaves every other name's lookup unchanged. -/
theorem getFirewallRule_patch_other (s : List Firewall) (opt : Options)
    (nm n : String) (hne : n ≠ nm) :
    getFirewallRule (patchFirewallRule s opt nm) n = getFirewallRule s n := by
  induction s with
  | nil => rfl
  | cons a l ih =>
    rw [patchFirewallRule_cons]
    by_cases ha : a.Name = nm
    · have ha2 : a.Name ≠ n := fun hc => hne (hc.symm.trans ha)
      rw [if_pos ha]
      rw [getFirewallRule_cons_neg _ _ _ (by simpa using ha2)]
      rw [getFirewallRule_cons_neg a l n ha2]
      exact ih
    · rw [if_neg ha]
      by_cases ha2 : a.Name = n
      · rw [getFirewallRule_cons_pos a _ n ha2, getFirewallRule_cons_pos a l n ha2]
      · rw [getFirewallRule_cons_neg a _ n ha2, getFirewallRule_cons_neg a l n ha2]
        exact ih

/-- C2: after ensuring the three firewall rules exist, ensureFirewallRules
patches exactly the ingress-allow-SSH rule, and only when the fetched rule's
source CIDR list differs (order-sensitively) from the desired list; in the
drift scenario where the existing ingress rule has CIDRs [A] and the desired
list is [A, B], the rule's CIDRs become exactly [A, B] and the lookup of
every other rule name is untouched by the patch. -/
theorem claim2_firewall_drift_patch :
    (∀ s opt s' patches,
      ensureFirewallRules s opt = .ok (s', patches) →
      (∀ p ∈ patches, p = (IngressAllowSSH opt).Name) ∧
      (patches = [] ↔
        (getFirewallRule (ensureFirewallRulesExist s opt)
          (IngressAllowSSH opt).Name).map Firewall.SourceRanges =
            some opt.CIDRs)) ∧
    (∀ s opt A B fw,
      getFirewallRule s (IngressAllowSSH opt).Name = some fw →
      fw.SourceRanges = [A] → opt.CIDRs = [A, B] →
      ∃ s', ensureFirewallRules s opt =
          .ok (s', [(IngressAllowSSH opt).Name]) ∧
        getFirewallRule s' (IngressAllowSSH opt).Name =
          some { fw with SourceRanges := [A, B] } ∧
        ∀ n, n ≠ (IngressAllowSSH opt).Name →
          getFirewallRule s' n =
            getFirewallRule (ensureFirewallRulesExist s opt) n) := by
  constructor
  · intro s opt s' patches h
    simp only [ensureFirewallRules] at h
    cases hget : getFirewallRule (ensureFirewallRulesExist s opt)
        (IngressAllowSSH opt).Name with
    | none =>
      rw [hget] at h
      cases h
    | some firewall =>
      rw [hget] at h
      dsimp only at h
      by_cases hcid : firewall.SourceRanges = opt.CIDRs
      · rw [if_pos hcid] at h
        simp only [Except.ok.injEq, Prod.mk.injEq] at h
        obtain ⟨hs, hp⟩ := h
        subst hs
        subst hp
        refine ⟨by simp, ?_⟩
        simp [hcid]
      · rw [if_neg hcid] at h
        simp only [Except.ok.injEq, Prod.mk.injEq] at h
        obtain ⟨hs, hp⟩ := h
        subst hs
        subst hp
        refine ⟨by simp, ?_⟩
        simp [hcid]
  · intro s opt A B fw hlook hsr hcid
    have hens := getFirewallRule_ensureExist_preserved s opt
      (IngressAllowSSH opt).Name fw hlook
    have hneq : fw.SourceRanges ≠ opt.CIDRs := by
      rw [hsr, hcid]
      simp
    refine ⟨patchFirewallRule (ensureFirewallRulesExist s opt) opt
      (IngressAllowSSH opt).Name, ?_, ?_, ?_⟩
    · simp only [ensureFirewallRules]
      rw [hens]
      simp [hneq]
    · have hpatch := getFirewallRule_patch_self
        (ensureFirewallRulesExist s opt) opt (IngressAllowSSH opt).Name fw hens
      rw [hpatch, hcid]
    · intro n hn
      exact getFirewallRule_patch_other _ opt _ n hn

/-- Options for the concrete drift scenario: one existing allowed CIDR plus a
newly requested one. -/
def driftOptions : Options where
  BastionInstanceName := "bastion"
  CIDRs := ["10.0.0.0/8", "192.168.0.0/16"]

/-- The pre-existing ingress-allow-SSH rule holding only the old CIDR. -/
def driftRule : Firewall where
  Name := "bastion-allow-ssh"
  SourceRanges := ["10.0.0.0/8"]

/-- Provider state for the concrete drift scenario. -/
def driftState : List Firewall := [driftRule]

/-- Witness for C2 at the concrete drift scenario. -/
theorem claim2_witness :
    getFirewallRule driftState (IngressAllowSSH driftOptions).Name =
      some driftRule ∧
    driftRule.SourceRanges = ["10.0.0.0/8"] ∧
    driftOptions.CIDRs = ["10.0.0.0/8", "192.168.0.0/16"] ∧
    ∃ s', ensureFirewallRules driftState driftOptions =
        .ok (s', [(IngressAllowSSH driftOptions).Name]) ∧
      getFirewallRule s' (IngressAllowSSH driftOptions).Name =
        some { driftRule with
                 SourceRanges := ["10.0.0.0/8", "192.168.0.0/16"] } ∧
      ∀ n, n ≠ (IngressAllowSSH driftOptions).Name →
        getFirewallRule s' n =
          getFirewallRule (ensureFirewallRulesExist driftState driftOptions) n :=
  ⟨rfl, rfl, rfl,
   claim2_firewall_drift_patch.2 driftState driftOptions
     "10.0.0.0/8" "192.168.0.0/16" driftRule rfl rfl rfl⟩
